import Mathlib

/-!
Verification of the ibis adapter-layer excerpt: the PySpark cluster client
(`ibis/backends/pyspark/client.py`), the file-backend namespace walker
(`ibis/backends/base/file/__init__.py`), and the pandas execution constants
(`ibis/backends/pandas/execution/constants.py`), shallowly embedded as
executable Lean definitions with theorems about their contracts.
-/

namespace IbisSpec

/-- Python truthiness of an optional string argument: `None` and the empty
string are falsy, every other string is truthy. -/
def pyTruthyStr : Option String → Bool
  | none => false
  | some s => s ≠ ""

/-- Python `a or b` on two optional strings, as used in
`PySparkTable._match_name` (`quoted or unquoted`): a present non-empty
string is truthy and wins, otherwise the second operand is returned. -/
def pyOrStr (a b : Option String) : Option String :=
  match a with
  | some s => if s = "" then b else some s
  | none => b

/-! ## Pandas execution constants (`constants.py`, `BINARY_OPERATIONS`) -/

/-- The comparison-shaped keys of the `BINARY_OPERATIONS` dispatch table of
the pandas backend that this development models. -/
inductive BinCmpOp
  | greater
  | less
  | lessEqual
  | greaterEqual
  | equals
  | notEquals
  | identicalTo
deriving DecidableEq, Repr

/-- A pandas scalar operand: `none` is a null (`NaN`/`None`), `some a` a
concrete value. -/
abbrev PdVal := Option Int

/-- `pd.isnull`: true exactly on a null operand. -/
def pdIsNull (x : PdVal) : Bool := x.isNone

/-- Lift of a strict comparison operator to nullable operands with pandas
null semantics: any comparison involving a null is false (`NaN == NaN` and
`NaN < x` are false). -/
def liftCmpNullFalse (f : Int → Int → Bool) : PdVal → PdVal → Bool
  | some a, some b => f a b
  | _, _ => false

/-- `operator.ne` under pandas null semantics: a comparison involving a null
is true (`NaN != NaN` is true). -/
def opNotEquals : PdVal → PdVal → Bool
  | some a, some b => a ≠ b
  | _, _ => true

/-- `operator.eq` under pandas null semantics: plain equality, no null
handling (a null compares unequal to everything, itself included). -/
def opEquals : PdVal → PdVal → Bool := liftCmpNullFalse (fun a b => a = b)

/-- The `ops.IdenticalTo` entry of `BINARY_OPERATIONS`:
`lambda x, y: (x == y) | (pd.isnull(x) & pd.isnull(y))`. -/
def opIdenticalTo (x y : PdVal) : Bool :=
  opEquals x y || (pdIsNull x && pdIsNull y)

/-- The comparison rows of the `BINARY_OPERATIONS` table: each operation key
is mapped to its Python callable. -/
def BINARY_OPERATIONS : BinCmpOp → PdVal → PdVal → Bool
  | .greater => liftCmpNullFalse (fun a b => a > b)
  | .less => liftCmpNullFalse (fun a b => a < b)
  | .lessEqual => liftCmpNullFalse (fun a b => a ≤ b)
  | .greaterEqual => liftCmpNullFalse (fun a b => a ≥ b)
  | .equals => opEquals
  | .notEquals => opNotEquals
  | .identicalTo => opIdenticalTo

/-! ## Cluster client `create_table` (`PySparkClient.create_table`) -/

/-- A schema as the adapters see it: an ordered association of column name
to type, with types represented by their names. -/
abbrev Schema := List (String × String)

/-- The `obj` argument of `create_table`: a pandas `DataFrame` or an ibis
table expression (carried opaquely by an identifier, with its schema where
the code reads it). -/
inductive TableObj
  | dataframe (d : Nat)
  | expr (e : Nat)
deriving DecidableEq, Repr

/-- A DDL statement object built by the collaborating statement-builder
module, kept structural (its `compile()` to a string is external). -/
inductive DdlStmt
  | ctas (name : String) (e : Nat) (db : Option String) (canExist : Bool) (fmt : String)
  | createTableWithSchema (name : String) (schema : Schema) (db : Option String)
      (fmt : String) (canExist : Bool)
  | insertSelect (name : String) (e : Nat) (overwrite : Bool)
deriving DecidableEq, Repr

/-- A native call issued to the Spark engine. -/
inductive SparkAction
  | saveAsTable (name : String) (fmt : String) (mode : String)
  | insertInto (name : String) (overwrite : Bool)
  | rawSql (stmt : DdlStmt)
deriving DecidableEq, Repr

/-- The error taxonomy of the modelled operations. -/
inductive IbisErr
  | mustPassExprOrSchema
  | differentNames
  | cannotCast (lt rt : String)
  | keyError (name : String)
  | notImplemented
deriving DecidableEq, Repr

/-- `PySparkClient.create_table`: the returned list records every native
call issued (bulk load or submitted statement); an error result carries no
native call, mirroring that the raise happens before any is issued. -/
def create_table (table_name : String) (obj : Option TableObj) (schema : Option Schema)
    (database : Option String) (force : Bool) (fmt : String) :
    List SparkAction × Except IbisErr Unit :=
  match obj with
  | some (.dataframe _) =>
      ([.saveAsTable table_name fmt (if force then "overwrite" else "error")], .ok ())
  | some (.expr e) =>
      ([.rawSql (.ctas table_name e database force fmt)], .ok ())
  | none =>
      match schema with
      | some s => ([.rawSql (.createTableWithSchema table_name s database fmt force)], .ok ())
      | none => ([], .error .mustPassExprOrSchema)

/-! ## Cluster table `insert` and its validation (`PySparkTable`) -/

/-- The names of a schema, in declaration order. -/
def schemaNames (s : Schema) : List String := s.map (fun p => p.1)

/-- Python `set(from_schema.names) != set(to_schema.names)` negated: the two
name lists contain the same names as sets. -/
def sameNameSet (a b : Schema) : Bool :=
  (schemaNames a).all (fun n => (schemaNames b).contains n) &&
    (schemaNames b).all (fun n => (schemaNames a).contains n)

/-- Schema indexing `sch[name]`: the type of the first column with that
name. -/
def lookupTy (name : String) (s : Schema) : Option String :=
  ((s.find? (fun p => p.1 == name)).map (fun p => p.2))

/-- The cast loop of `PySparkTable._validate_compatible`: for each source
column in order, the destination type is looked up and the castability
predicate applied; the first offending pair aborts with its two types. The
`keyError` case mirrors Python's `KeyError` on a missing destination column
and is unreachable once the name sets agree. -/
def checkCasts (castable : String → String → Bool) (to_schema : Schema) :
    List (String × String) → Except IbisErr Unit
  | [] => .ok ()
  | (nm, lt) :: rest =>
      match lookupTy nm to_schema with
      | some rt =>
          if castable lt rt then checkCasts castable to_schema rest
          else .error (.cannotCast lt rt)
      | none => .error (.keyError nm)

/-- `PySparkTable._validate_compatible(from_schema, to_schema)`: a
name-set mismatch is reported first; otherwise every source column type
must be castable to the destination column type. -/
def validate_compatible (castable : String → String → Bool)
    (from_schema to_schema : Schema) : Except IbisErr Unit :=
  if !(sameNameSet from_schema to_schema) then .error .differentNames
  else checkCasts castable to_schema from_schema

/-- The `obj` argument of `PySparkTable.insert`: a pandas DataFrame (fast
path) or a table expression carrying its schema. -/
inductive InsertObj
  | dataframe (d : Nat)
  | expr (e : Nat) (schema : Schema)
deriving DecidableEq, Repr

/-- `PySparkTable.insert`: the returned list records every native call
issued; an error result carries none, mirroring that each raise happens
before any statement is compiled or submitted. `existing` is the table's
own schema (`self.schema()`). -/
def insert (castable : String → String → Bool) (name : String) (existing : Schema)
    (obj : InsertObj) (overwrite : Bool) (values : Option Unit) (validate : Bool) :
    List SparkAction × Except IbisErr Unit :=
  match obj with
  | .dataframe _ => ([.insertInto name overwrite], .ok ())
  | .expr e insert_schema =>
      if values.isSome then ([], .error .notImplemented)
      else if validate && !(insert_schema = existing : Bool) then
        match validate_compatible castable insert_schema existing with
        | .error err => ([], .error err)
        | .ok () => ([.rawSql (.insertSelect name e overwrite)], .ok ())
      else ([.rawSql (.insertSelect name e overwrite)], .ok ())

/-! ## File backend: dynamic attribute lookup (`FileDatabase.__getattr__`) -/

/-- The error conditions of the file backend's lookups: Python's
`AttributeError` (the not-found condition) and any other exception kind. -/
inductive PyErr
  | attributeError (name : String)
  | otherError (descr : String)
deriving DecidableEq, Repr

/-- `FileDatabase.__getattr__(name)`: try `table(name, path)`; on an
`AttributeError` fall back to `database(name, path)`; any other error from
the table lookup propagates. The two arguments are the outcomes of the two
resolutions against the same name and path. -/
def file_database_getattr {α : Type} (tableRes dbRes : Except PyErr α) :
    Except PyErr α :=
  match tableRes with
  | .ok v => .ok v
  | .error (.attributeError _) => dbRes
  | .error e => .error e

/-! ## Cluster adapter qualified names (`_fully_qualified_name`, `_match_name`) -/

/-- Split a character list at the first occurrence of `c`: the part before
it (free of `c`) and the part after it, or `none` when `c` is absent. -/
def breakAtFirst (c : Char) : List Char → Option (List Char × List Char)
  | [] => none
  | x :: xs =>
      if x = c then some ([], xs)
      else
        match breakAtFirst c xs with
        | some (pre, post) => some (x :: pre, post)
        | none => none

/-- Split a character list at the last occurrence of `c` (the part after it
is free of `c`), or `none` when `c` is absent. -/
def splitAtLast (c : Char) (cs : List Char) : Option (List Char × List Char) :=
  match breakAtFirst c cs.reverse with
  | some (revRest, revPre) => some (revPre.reverse, revRest.reverse)
  | none => none

/-- Modelled from the spec: the backtick-quoted alternative of the
fully-qualified-name pattern. A remainder that starts with a backtick and
holds a later backtick yields the text between the opening backtick and
the last backtick (the greedy quoted group); otherwise the alternative does
not apply. -/
def unquoteBackticks : List Char → Option (List Char)
  | c :: rest =>
      if c = '`' then
        match breakAtFirst '`' rest.reverse with
        | some (_, revMid) => some revMid.reverse
        | none => none
      else none
  | [] => none

/-- Modelled from the spec: the qualified-name pattern match
(`fully_qualified_re.match`) of the external DDL module, which the spec
describes as recognizing a `database.table` string with the table part
optionally backtick-escaped. The groups are (database, quoted, unquoted):
the database part ends at the last dot (the greedy first group), and the
remainder is read as a backtick-quoted table name when possible, raw
otherwise. `none` when the name holds no dot at all. -/
def fully_qualified_match (s : String) :
    Option (String × Option String × Option String) :=
  match splitAtLast '.' s.toList with
  | none => none
  | some (db, rest) =>
      match unquoteBackticks rest with
      | some q => some (⟨db⟩, some ⟨q⟩, none)
      | none => some (⟨db⟩, none, some ⟨rest⟩)

/-- Modelled from the spec: `is_fully_qualified` of the external DDL
module; the qualified-name pattern finds a match somewhere in the string
exactly when the string holds a dot. -/
def is_fully_qualified (s : String) : Bool := s.toList.contains '.'

/-- `PySparkTable._match_name`: parse the handle's qualified name with the
qualified-name pattern; no match returns `(None, name)`, a match returns
the database group and `quoted or unquoted` under Python truthiness. -/
def match_name (qualifiedName : String) : Option String × Option String :=
  match fully_qualified_match qualifiedName with
  | none => (none, some qualifiedName)
  | some (db, quoted, unquoted) => (some db, pyOrStr quoted unquoted)

/-- `PySparkClient._fully_qualified_name(name, database)`: an already
fully-qualified name is returned unchanged; otherwise a truthy database
produces the database, a dot, and the name wrapped in backticks, and a
falsy database leaves the name as is. -/
def fully_qualified_name (name : String) (database : Option String) : String :=
  if is_fully_qualified name then name
  else if pyTruthyStr database then (database.getD "") ++ "." ++ "`" ++ name ++ "`"
  else name

/-! ## File client `database` and the namespace walkers (`FileClient`) -/

/-- A filesystem path as its components; the client root and lookup paths
are such lists. -/
abbrev FPath := List String

/-- Python `str(path)` for a components path: the components joined with a
slash. -/
def pathStr (p : FPath) : String := String.intercalate "/" p

/-- Python `str.endswith`. -/
def strEndsWith (s suffix : String) : Bool :=
  suffix.toList.reverse.isPrefixOf s.toList.reverse

/-- `pathlib.Path.stem`: the name without its suffix; the suffix starts at
the last dot unless that dot leads the name (a dot-file has no suffix). -/
def pathStem (name : String) : String :=
  match splitAtLast '.' name.toList with
  | some (pre, _) => if pre = [] then name else ⟨pre⟩
  | none => name

/-- The file client's per-connection state read by `database`: the root
path and the backend's registered file extension (stored without a dot,
e.g. `csv`). -/
structure FClient where
  root : FPath
  extension : String
deriving DecidableEq, Repr

/-- The `FileDatabase` node `database` returns: its display name and the
path it is bound to (`none` mirrors constructing the root node with
`path=None`). -/
structure FileDb where
  name : String
  path : Option FPath
deriving DecidableEq, Repr

/-- `FileClient.database(name, path)`. `isDir` is the filesystem's
`Path.is_dir` probe and `listDbs` the backend-selected
`list_databases(path)` (its `None` default handling included). With no
name the root node is returned unconditionally; with a name absent from
the listing the call fails with `AttributeError(name)`; otherwise the
bound path is the lookup path extended by the directory name when
`root/name` is a directory, left unchanged when it already ends with
`name.extension`, and extended by `name.extension` otherwise. -/
def database (c : FClient) (isDir : FPath → Bool) (listDbs : Option FPath → List String)
    (name : Option String) (path : Option FPath) : Except PyErr FileDb :=
  match name with
  | none => .ok ⟨"root", path⟩
  | some n =>
      if (listDbs path).contains n then
        let p := path.getD c.root
        let newName := n ++ "." ++ c.extension
        let p' :=
          if isDir (c.root ++ [n]) then p ++ [n]
          else if strEndsWith (pathStr p) newName then p
          else p ++ [newName]
        .ok ⟨n, some p'⟩
      else .error (.attributeError n)

/-- An immediate child of a directory, as `Path.iterdir` yields it: a
subdirectory or a regular file, with its final name. -/
inductive FEntry
  | dir (name : String)
  | file (name : String)
deriving DecidableEq, Repr

/-- What the walkers see at a path: a directory with its children in
iteration order, a single file (with the path's full string), or nothing. -/
inductive PathState
  | isDirWith (entries : List FEntry)
  | isFileAt (full : String)
  | absent
deriving DecidableEq, Repr

/-- `FileClient._list_tables_files(path)`: in a directory, the stems of the
child files whose path string ends with the extension; at a file, that
file's stem when its path string ends with the extension; else nothing.
`dirStr` is the directory path's string, used to form each child's
`str(d)`. -/
def list_tables_files (extension : String) (dirStr : String) : PathState → List String
  | .isDirWith es =>
      es.filterMap (fun e =>
        match e with
        | .file n =>
            if strEndsWith (dirStr ++ "/" ++ n) extension then some (pathStem n) else none
        | .dir _ => none)
  | .isFileAt full =>
      if strEndsWith full extension then [pathStem (pathLast full)] else []
  | .absent => []
where
  /-- The final component of a slash-joined path string. -/
  pathLast (full : String) : String := ((full.splitOn "/").getLast?).getD full

/-- `FileClient._list_databases_dirs_or_files(path)`: in a directory, each
child directory contributes its name and each child file whose path string
ends with the extension contributes its stem; at a file or a missing path,
nothing. -/
def list_databases_dirs_or_files (extension : String) (dirStr : String) :
    PathState → List String
  | .isDirWith es =>
      es.filterMap (fun e =>
        match e with
        | .dir n => some n
        | .file n =>
            if strEndsWith (dirStr ++ "/" ++ n) extension then some (pathStem n) else none)
  | .isFileAt _ => []
  | .absent => []

/-! ## Cluster client `execute` (`PySparkClient.execute`) -/

/-- The result-shape dispatch of `execute`: the expression layer's table,
column and scalar expression kinds, and any other expression object (its
type name carried for the error message). -/
inductive IExpr
  | table (t : Nat)
  | column (c : Nat)
  | scalar (s : Nat)
  | other (typeName : String)
deriving DecidableEq, Repr

/-- What the external translator hands back for a compiled expression: a
native DataFrame or a bare native Column. -/
inductive Compiled
  | dataframe (d : Nat)
  | column (c : Nat)
deriving DecidableEq, Repr

/-- The outcome of `execute`: a materialized table, the named single-column
projection's extracted series, or the single cell — read directly from the
compiled DataFrame, or forced through the one-row probe query when the
scalar compiled to a bare Column. -/
inductive ExecResult
  | tableFrame (c : Compiled)
  | namedSeries (nm : String) (c : Compiled)
  | cellFromProbe (col : Nat)
  | cellDirect (d : Nat)
deriving DecidableEq, Repr

/-- `PySparkClient.execute(expr, ...)`. The three compile parameters stand
for the external translator applied to the table expression, to the
single-column projection of the column named `tmp`, and to the scalar
expression. Any other expression kind raises
`IbisError("Cannot execute expression of type: ...")`. -/
def execute (compileTable compileProjection compileScalar : Nat → Compiled) :
    IExpr → Except String ExecResult
  | .table t => .ok (.tableFrame (compileTable t))
  | .column c => .ok (.namedSeries "tmp" (compileProjection c))
  | .scalar s =>
      match compileScalar s with
      | .column col => .ok (.cellFromProbe col)
      | .dataframe d => .ok (.cellDirect d)
  | .other typeName => .error ("Cannot execute expression of type: " ++ typeName)

/-! ## Cluster catalog listings (`list_tables`, `list_databases`, `exists_database`) -/

/-- `PySparkClient.list_tables(like, database)`: the native catalog names
(in catalog order), filtered — when `like` is truthy — by the external
regular-expression matcher `re.match(like, name)` (anchored at the start
of each name). `matcher` stands for that external matcher. -/
def list_tables (matcher : String → String → Bool) (like : Option String)
    (catalogNames : List String) : List String :=
  let results := catalogNames
  if pyTruthyStr like then results.filter (fun n => matcher (like.getD "") n)
  else results

/-- `PySparkClient.list_databases(like)`: identical filtering over the
catalog's database names. -/
def list_databases (matcher : String → String → Bool) (like : Option String)
    (dbNames : List String) : List String :=
  let results := dbNames
  if pyTruthyStr like then results.filter (fun n => matcher (like.getD "") n)
  else results

/-- `PySparkClient.exists_database(name)`:
`bool(self.list_databases(like=name))`. -/
def exists_database (matcher : String → String → Bool) (name : String)
    (dbNames : List String) : Bool :=
  !(list_databases matcher (some name) dbNames).isEmpty

/-- Modelled from the spec: the external anchored-at-start
regular-expression match (`re.match`), restricted to patterns made of
literal characters and the any-character dot metacharacter — enough to
witness that the probe is pattern matching, not string equality. The
pattern must match a prefix of the candidate. -/
def reMatchSimple (pat s : String) : Bool := go pat.toList s.toList
where
  go : List Char → List Char → Bool
    | [], _ => true
    | _ :: _, [] => false
    | p :: ps, c :: cs => (p = '.' || p = c) && go ps cs

/-! ## Theorems -/

/-- C1 counterexample: `create_table` called with BOTH `obj` (an
expression) and `schema` does not fail — the `obj` branch wins, the call
succeeds and submits the create-table-as-select statement, contradicting
the claim that supplying both fails with a configuration error. -/
theorem create_table_both_supplied_not_rejected :
    (create_table "t" (some (.expr 0)) (some [("a", "int32")]) none false "parquet").2
        = .ok () ∧
      (create_table "t" (some (.expr 0)) (some [("a", "int32")]) none false "parquet").1
        = [.rawSql (.ctas "t" 0 none false "parquet")] :=
  ⟨rfl, rfl⟩

/-- C1 (amended): at least one of `obj`/`schema` must be supplied: with
neither, `create_table` fails with the configuration error before any
native call is issued; with both, `obj` takes precedence and the call
behaves exactly as if `schema` had not been passed. -/
theorem create_table_requires_at_least_one (table_name : String)
    (database : Option String) (force : Bool) (fmt : String) :
    create_table table_name none none database force fmt
        = ([], .error .mustPassExprOrSchema) ∧
      ∀ (o : TableObj) (s : Schema),
        create_table table_name (some o) (some s) database force fmt
          = create_table table_name (some o) none database force fmt := by
  refine ⟨rfl, fun o s => ?_⟩
  cases o <;> rfl

/-- C6 counterexample: in directories-and-files mode, the files `a.csv`
and `b.csv` DO contribute database entries (their stems), so the database
listing for the claimed directory is not the singleton `sub`. -/
theorem dirs_or_files_mode_counts_files :
    list_databases_dirs_or_files "csv" "root"
          (.isDirWith [.file "a.csv", .file "b.csv", .dir "sub"])
        = ["a", "b", "sub"] ∧
      "a" ∈ list_databases_dirs_or_files "csv" "root"
          (.isDirWith [.file "a.csv", .file "b.csv", .dir "sub"]) ∧
      ("a" ∈ (["sub"] : List String) → False) :=
  ⟨rfl, by decide, by decide⟩

/-- C6 (amended): for a directory holding files `a.csv`, `b.csv` and the
subdirectory `sub`, the directories-and-files walker lists databases
`a`, `b`, `sub` (files with the extension contribute their stems) and the
table walker lists tables `a`, `b`. -/
theorem dirs_or_files_listing_example :
    list_tables_files "csv" "root"
          (.isDirWith [.file "a.csv", .file "b.csv", .dir "sub"])
        = ["a", "b"] ∧
      list_databases_dirs_or_files "csv" "root"
          (.isDirWith [.file "a.csv", .file "b.csv", .dir "sub"])
        = ["a", "b", "sub"] :=
  ⟨rfl, rfl⟩

/-- C7: `execute` dispatches table-shaped expressions to table
materialization, column-shaped ones to the extraction of the projection's
column named `tmp`, scalar-shaped ones to single-cell extraction (through
the one-row probe when the translator returned a bare column), and fails
on every other expression kind with the descriptive
unsupported-expression error, never succeeding there. -/
theorem execute_shape_dispatch (compileTable compileProjection compileScalar : Nat → Compiled) :
    (∀ typeName, execute compileTable compileProjection compileScalar (.other typeName)
        = .error ("Cannot execute expression of type: " ++ typeName)) ∧
      (∀ t, execute compileTable compileProjection compileScalar (.table t)
        = .ok (.tableFrame (compileTable t))) ∧
      (∀ c, execute compileTable compileProjection compileScalar (.column c)
        = .ok (.namedSeries "tmp" (compileProjection c))) ∧
      (∀ s col, compileScalar s = .column col →
        execute compileTable compileProjection compileScalar (.scalar s)
          = .ok (.cellFromProbe col)) ∧
      (∀ s d, compileScalar s = .dataframe d →
        execute compileTable compileProjection compileScalar (.scalar s)
          = .ok (.cellDirect d)) ∧
      (∀ typeName r, execute compileTable compileProjection compileScalar (.other typeName)
        ≠ .ok r) := by
  refine ⟨fun _ => rfl, fun _ => rfl, fun _ => rfl, ?_, ?_, ?_⟩
  · intro s col h
    simp [execute, h]
  · intro s d h
    simp [execute, h]
  · intro typeName r h
    simp [execute] at h

/-- C10: the pandas `BINARY_OPERATIONS` table maps `IdenticalTo` to
null-safe equality — true exactly when the operands are equal non-nulls or
both null — while the `Equals` entry is plain equality with no null
handling: it is true exactly when both operands are equal non-nulls, so it
is false on two nulls. -/
theorem identical_to_null_safe_equals_plain (x y : PdVal) :
    (BINARY_OPERATIONS .identicalTo x y = true
        ↔ ((∃ a, x = some a ∧ y = some a) ∨ (x = none ∧ y = none))) ∧
      (BINARY_OPERATIONS .equals x y = true ↔ ∃ a, x = some a ∧ y = some a) := by
  cases x <;> cases y <;>
    simp [BINARY_OPERATIONS, opIdenticalTo, opEquals, liftCmpNullFalse, pdIsNull, eq_comm]

/-- C2: a table-expression insert with validation requested, whose source
schema differs from the destination schema, validates compatibility before
any submission: a column-name-set mismatch yields the named-column
mismatch error, a cast-incompatible column yields the cast error naming
the offending source and destination types, and in both failure cases the
returned native-call list is empty — nothing was submitted and no data
moved. When validation passes, exactly the insert statement is
submitted. -/
theorem insert_expr_validation_blocks_submission
    (castable : String → String → Bool) (name : String) (existing s : Schema)
    (e : Nat) (overwrite : Bool) (h : s ≠ existing) :
    (sameNameSet s existing = false →
        insert castable name existing (.expr e s) overwrite none true
          = ([], .error .differentNames)) ∧
      (∀ lt rt, sameNameSet s existing = true →
        checkCasts castable existing s = .error (.cannotCast lt rt) →
        insert castable name existing (.expr e s) overwrite none true
          = ([], .error (.cannotCast lt rt))) ∧
      (sameNameSet s existing = true → checkCasts castable existing s = .ok () →
        insert castable name existing (.expr e s) overwrite none true
          = ([.rawSql (.insertSelect name e overwrite)], .ok ())) := by
  refine ⟨?_, ?_, ?_⟩
  · intro h1
    simp [insert, validate_compatible, h, h1]
  · intro lt rt h1 h2
    simp [insert, validate_compatible, h, h1, h2]
  · intro h1 h2
    simp [insert, validate_compatible, h, h1, h2]

/-- C2 witness: concrete schemas with different column-name sets make the
table-expression insert fail with the named-column mismatch error and
submit nothing. -/
theorem insert_expr_validation_blocks_submission_witness :
    insert (fun _ _ => false) "t" [("a", "int64")] (.expr 7 [("b", "int64")]) false none true
      = ([], .error .differentNames) :=
  (insert_expr_validation_blocks_submission (fun _ _ => false) "t"
      [("a", "int64")] [("b", "int64")] 7 false (by decide)).1 (by decide)

/-- C3: the dynamic attribute lookup of a File Database node first
attempts table resolution; a successful table resolution wins regardless
of the database resolution (so a name that is both resolves to the
table); on a not-found table resolution the lookup falls back to database
resolution of the same name; and when both fail with not-found the whole
lookup fails with the database resolution's not-found condition. -/
theorem file_database_getattr_table_first (tableRes dbRes : Except PyErr Nat) :
    (∀ v, tableRes = .ok v → file_database_getattr tableRes dbRes = .ok v) ∧
      (∀ n, tableRes = .error (.attributeError n) →
        file_database_getattr tableRes dbRes = dbRes) ∧
      (∀ n m, tableRes = .error (.attributeError n) →
        dbRes = .error (.attributeError m) →
        file_database_getattr tableRes dbRes = .error (.attributeError m)) := by
  refine ⟨?_, ?_, ?_⟩
  · intro v h
    subst h
    rfl
  · intro n h
    subst h
    rfl
  · intro n m h1 h2
    subst h1
    subst h2
    rfl

/-- C5 counterexample: `database` decides directory-versus-file against
the client ROOT, not against the lookup path. Here `foo` appears in the
listing at path `r/sub` (a file `foo.csv` lives there, and `r/sub/foo` is
not a directory), yet because `r/foo` happens to be a directory the
returned node is bound to `r/sub/foo`, not to the `r/sub/foo.csv` the
claim predicts for a file target. -/
theorem database_checks_root_not_path :
    database ⟨["r"], "csv"⟩ (fun p => p = ["r", "foo"]) (fun _ => ["foo"])
          (some "foo") (some ["r", "sub"])
        = .ok ⟨"foo", some ["r", "sub", "foo"]⟩ ∧
      (fun p => (p = ["r", "foo"] : Bool)) ["r", "sub", "foo"] = false ∧
      (some ["r", "sub", "foo"] : Option FPath) ≠ some ["r", "sub", "foo.csv"] :=
  ⟨rfl, by decide, by decide⟩

/-- C5 (amended): with a name, `database` fails with the not-found
condition exactly when the name is absent from the databases listing at
the lookup path; when present, the returned node is bound to path/name
when root/name is a directory (the probe is against the client root, not
the lookup path), to the unchanged path when its string already ends with
name.extension, and to path/name.extension otherwise — the lookup path
defaulting to the root. -/
theorem database_resolution_characterization (c : FClient) (isDir : FPath → Bool)
    (listDbs : Option FPath → List String) (n : String) (path : Option FPath) :
    ((listDbs path).contains n = false →
        database c isDir listDbs (some n) path = .error (.attributeError n)) ∧
      ((listDbs path).contains n = true → isDir (c.root ++ [n]) = true →
        database c isDir listDbs (some n) path
          = .ok ⟨n, some ((path.getD c.root) ++ [n])⟩) ∧
      ((listDbs path).contains n = true → isDir (c.root ++ [n]) = false →
        strEndsWith (pathStr (path.getD c.root)) (n ++ "." ++ c.extension) = false →
        database c isDir listDbs (some n) path
          = .ok ⟨n, some ((path.getD c.root) ++ [n ++ "." ++ c.extension])⟩) ∧
      ((listDbs path).contains n = true → isDir (c.root ++ [n]) = false →
        strEndsWith (pathStr (path.getD c.root)) (n ++ "." ++ c.extension) = true →
        database c isDir listDbs (some n) path = .ok ⟨n, some (path.getD c.root)⟩) := by
  refine ⟨?_, ?_, ?_, ?_⟩
  · intro h1
    have h1' : ¬ n ∈ listDbs path := by simpa using h1
    simp [database, h1']
  · intro h1 h2
    have h1' : n ∈ listDbs path := by simpa using h1
    simp [database, h1', h2]
  · intro h1 h2 h3
    have h1' : n ∈ listDbs path := by simpa using h1
    simp [database, h1', h2, h3]
  · intro h1 h2 h3
    have h1' : n ∈ listDbs path := by simpa using h1
    simp [database, h1', h2, h3]

/-- C8: with a non-empty pattern, `list_tables` returns exactly the
members of the full catalog listing accepted by the anchored
regular-expression matcher — membership is equivalent to being a catalog
name the pattern matches — as a sublist of the listing, so catalog order
is preserved; with no pattern the full listing is returned unfiltered. -/
theorem list_tables_like_filter (matcher : String → String → Bool)
    (catalogNames : List String) (l : String) (h : l ≠ "") :
    (∀ n, n ∈ list_tables matcher (some l) catalogNames
        ↔ n ∈ catalogNames ∧ matcher l n = true) ∧
      List.Sublist (list_tables matcher (some l) catalogNames) catalogNames ∧
      list_tables matcher none catalogNames = catalogNames := by
  refine ⟨?_, ?_, ?_⟩
  · intro n
    simp [list_tables, pyTruthyStr, h]
  · simp only [list_tables, pyTruthyStr, h, decide_not]
    simp [List.filter_sublist]
  · rfl

/-- C8 witness: the pattern `foo.` keeps `foo1` from the listing
`[foo1, bar]`. -/
theorem list_tables_like_filter_witness :
    "foo1" ∈ list_tables reMatchSimple (some "foo.") ["foo1", "bar"] :=
  ((list_tables_like_filter reMatchSimple ["foo1", "bar"] "foo." (by decide)).1
      "foo1").mpr (by decide)

/-- C9: `exists_database(name)` is true exactly when some database of the
catalog listing is accepted by the anchored regular-expression matcher
applied to `name` — a pattern probe, not an equality check: the pattern
`foo.` reports true against a catalog holding only `foobar`, a name it
does not literally equal. -/
theorem exists_database_is_pattern_probe (matcher : String → String → Bool)
    (dbNames : List String) (name : String) :
    (name ≠ "" →
        (exists_database matcher name dbNames = true
          ↔ ∃ db ∈ dbNames, matcher name db = true)) ∧
      (exists_database reMatchSimple "foo." ["foobar"] = true ∧
        ("foo." ∈ (["foobar"] : List String) → False)) := by
  refine ⟨?_, by decide, by decide⟩
  intro h
  simp [exists_database, list_databases, pyTruthyStr, h, List.isEmpty_iff,
    List.filter_eq_nil_iff]

/-- Rebuilding a string from its character list is the identity. -/
theorem string_mk_toList (s : String) : String.mk s.toList = s := rfl

/-- Appending strings appends their character lists. -/
theorem string_toList_append (a b : String) :
    (a ++ b).toList = a.toList ++ b.toList := by
  cases a
  cases b
  rfl

/-- `breakAtFirst` on a list whose head part avoids the needle splits at
the planted occurrence. -/
theorem breakAtFirst_of_not_mem (c : Char) (pre post : List Char) (h : c ∉ pre) :
    breakAtFirst c (pre ++ c :: post) = some (pre, post) := by
  induction pre with
  | nil => simp [breakAtFirst]
  | cons x xs ih =>
      have hx : ¬ (x = c) := by
        intro hc
        subst hc
        exact h (List.mem_cons_self x xs)
      have hxs : c ∉ xs := fun hm => h (List.mem_cons_of_mem _ hm)
      simp [breakAtFirst, hx, ih hxs]

/-- `splitAtLast` on a list whose tail part avoids the needle splits at
the planted occurrence. -/
theorem splitAtLast_append (c : Char) (pre post : List Char) (h : c ∉ post) :
    splitAtLast c (pre ++ c :: post) = some (pre, post) := by
  have h' : c ∉ post.reverse := by simpa using h
  unfold splitAtLast
  rw [show (pre ++ c :: post).reverse = post.reverse ++ c :: pre.reverse by simp]
  rw [breakAtFirst_of_not_mem c post.reverse pre.reverse h']
  simp

/-- The backtick-quoted alternative recovers exactly the wrapped
characters, whatever they are. -/
theorem unquote_wrap (n : List Char) :
    unquoteBackticks ('`' :: (n ++ ['`'])) = some n := by
  have h1 : (n ++ ['`']).reverse = '`' :: n.reverse := by simp
  simp [unquoteBackticks, h1, breakAtFirst]

/-- C4 counterexample: for the empty (unqualified) table name and database
`db`, the qualifier produces a parsable fully-qualified name, but
`_match_name` returns no table name at all — Python's `quoted or unquoted`
treats the matched empty quoted group as falsy — so parsing does not
recover the empty table name. -/
theorem match_name_empty_name_counterexample :
    match_name (fully_qualified_name "" (some "db")) = (some "db", none) ∧
      ((some "db", (none : Option String)) ≠ (some "db", some "")) :=
  ⟨by decide, by decide⟩

/-- C4 (amended): for every NON-EMPTY unqualified table name and non-empty
database, parsing the name produced by the qualifier recovers the database
and the unquoted table name; re-applying the qualifier to the produced
fully-qualified name returns it unchanged, as it does for every
fully-qualified name. -/
theorem qualified_name_roundtrip (n d : String)
    (h1 : is_fully_qualified n = false) (h2 : d ≠ "") (h3 : n ≠ "") :
    match_name (fully_qualified_name n (some d)) = (some d, some n) ∧
      fully_qualified_name (fully_qualified_name n (some d)) (some d)
        = fully_qualified_name n (some d) ∧
      (∀ q db2, is_fully_qualified q = true → fully_qualified_name q db2 = q) := by
  have hndot : '.' ∉ n.toList := by simpa [is_fully_qualified] using h1
  have hfq : fully_qualified_name n (some d) = d ++ "." ++ "`" ++ n ++ "`" := by
    simp [fully_qualified_name, h1, pyTruthyStr, h2]
  have hlist : (d ++ "." ++ "`" ++ n ++ "`").toList
      = d.toList ++ '.' :: ('`' :: (n.toList ++ ['`'])) := by
    simp [string_toList_append]
  have hpost : '.' ∉ ('`' :: (n.toList ++ ['`'])) := by
    intro hm
    rcases List.mem_cons.mp hm with h | h
    · exact absurd h (by decide)
    · rcases List.mem_append.mp h with h' | h'
      · exact hndot h'
      · exact absurd h' (by decide)
  have hsplit2 : splitAtLast '.' (d.toList ++ '.' :: ('`' :: (n.toList ++ ['`'])))
      = some (d.toList, '`' :: (n.toList ++ ['`'])) :=
    splitAtLast_append '.' d.toList _ hpost
  have hmatch : fully_qualified_match (d ++ "." ++ "`" ++ n ++ "`")
      = some (d, some n, none) := by
    unfold fully_qualified_match
    rw [hlist]
    rw [hsplit2]
    simp only [unquote_wrap, string_mk_toList]
  have hqual : is_fully_qualified (d ++ "." ++ "`" ++ n ++ "`") = true := by
    simp [is_fully_qualified, hlist]
  refine ⟨?_, ?_, ?_⟩
  · rw [hfq]
    simp [match_name, hmatch, pyOrStr, h3]
  · rw [hfq]
    simp [fully_qualified_name, hqual]
  · intro q db2 hq
    simp [fully_qualified_name, hq]

/-- C4 witness: the table name `t` qualified into database `db` parses
back to exactly `(db, t)`. -/
theorem qualified_name_roundtrip_witness :
    match_name (fully_qualified_name "t" (some "db")) = (some "db", some "t") :=
  (qualified_name_roundtrip "t" "db" (by decide) (by decide) (by decide)).1

end IbisSpec
